import Mathlib

/-!
Verification of the stormforge provider's TestCase controller
(`internal/controller/testcase/testcase.go`).

The Go code shells out to the `forge` CLI and talks to the Kubernetes API
server; both are modelled as explicit environments (`ForgeEnv`,
`ConnectorEnv`) supplying the outcome of every external call. Each embedded
operation returns the Go function's result together with the list of
external calls it performed, so ordering and absence-of-call properties are
directly provable. Go `(value, error)` multiple returns are embedded as
`value × Option String` (errors carry their message); a `nil` error is
`none`.
-/

/- Error message constants from the Go source. -/

def errNotMyType : String := "managed resource is not a TestCase custom resource"

def errTrackPCUsage : String := "cannot track ProviderConfig usage"

def errGetPC : String := "cannot get ProviderConfig"

def errGetCreds : String := "cannot get credentials"

def errNewClient : String := "cannot create new Service"

/-- Model of `errors.Wrap(err, msg)`: the wrapped error keeps `msg` as the
surfaced context and `e` as the cause. -/
def wrap (msg e : String) : String := msg ++ ": " ++ e

/- The structured JSON response of `forge --output json test-case list`. -/

structure forgeApiResponseDataAttributes where
  name : String
  scope : String
  org : String
deriving Repr, DecidableEq

structure forgeApiResponseData where
  id : String
  attributes : forgeApiResponseDataAttributes
deriving Repr, DecidableEq

structure forgeApiResponse where
  ForgeApiResponseData : List forgeApiResponseData
deriving Repr, DecidableEq

/-- External calls performed by the controller, in the order they happen.
`track`, `getPC` and `extractCreds` hit the Kubernetes configuration store;
`ping`, `listTC` and `createTC` invoke the `forge` CLI. -/
inductive Call where
  | track
  | getPC (name : String)
  | extractCreds
  | ping
  | listTC (org : String)
  | createTC (arg : String) (path : String)
deriving Repr, DecidableEq

/-- Outcomes of the external world for one reconciliation pass:
`listCmd org` is `forge --output json test-case list org` (error or stdout
bytes), `unmarshal` is `json.Unmarshal` of stdout bytes into
`forgeApiResponse`, `pingCmd` is `forge ping`, and `createCmd arg path` is
`forge test-case create arg path`. -/
structure ForgeEnv where
  listCmd : String → Except String String
  unmarshal : String → Except String forgeApiResponse
  pingCmd : Except String String
  createCmd : String → String → Except String String

/-- The `forge` client value: holds only the JWT token. -/
structure forge where
  jwtToken : String
deriving Repr, DecidableEq

/-- `NewForge` always succeeds (it returns a `nil` error in the source). -/
def NewForge (jwtToken : String) : Except String forge :=
  .ok { jwtToken := jwtToken }

/-- `forge.ping`: run `forge ping`; return its error (if any). -/
def forge.ping (env : ForgeEnv) (_f : forge) : Option String × List Call :=
  match env.pingCmd with
  | .error e => (some e, [Call.ping])
  | .ok _ => (none, [Call.ping])

/-- The `for _, element := range r.ForgeApiResponseData` loop of
`forge.exists`: true as soon as some record's `Attributes.Name` equals
`name`. -/
def existsLoop (data : List forgeApiResponseData) (name : String) : Bool :=
  match data with
  | [] => false
  | element :: rest =>
    if element.attributes.name == name then true else existsLoop rest name

/-- `forge.exists(org, name)`: run the list command; on command error return
`(false, err)`; on unmarshal error return `(false, err)`; otherwise scan the
parsed records for a matching name. -/
def forge.exists (env : ForgeEnv) (_f : forge) (org name : String) :
    (Bool × Option String) × List Call :=
  match env.listCmd org with
  | .error e => ((false, some e), [Call.listTC org])
  | .ok stdout =>
    match env.unmarshal stdout with
    | .error e => ((false, some e), [Call.listTC org])
    | .ok r => ((existsLoop r.ForgeApiResponseData name, none), [Call.listTC org])

/-- The fixed resource definition path passed to `forge test-case create`. -/
def loadtestPath : String := "examples/sample/loadtest.mjs"

/-- `forge.create(org, name)`: run
`forge test-case create org/name examples/sample/loadtest.mjs` and return
its error (if any). -/
def forge.create (env : ForgeEnv) (_f : forge) (org name : String) :
    Option String × List Call :=
  match env.createCmd (org ++ "/" ++ name) loadtestPath with
  | .error e => (some e, [Call.createTC (org ++ "/" ++ name) loadtestPath])
  | .ok _ => (none, [Call.createTC (org ++ "/" ++ name) loadtestPath])

/-- The configurable fields of a TestCase. `configurableField` is declared in
`apis/load/v1alpha1/types.go`. Modelled from the spec: the `Org` and `Name`
fields read by the controller (`Spec.ForProvider.Org`,
`Spec.ForProvider.Name`) are absent from the `TestCaseParameters` declaration
under `src/`; the spec's DesiredState identifies the external resource by
`{organization: string, name: string}`. -/
structure TestCaseParameters where
  configurableField : String
  org : String
  name : String
deriving Repr, DecidableEq

/-- The TestCase spec: the provider-config reference name (from the inlined
`xpv1.ResourceSpec`) and the configurable parameters. -/
structure TestCaseSpec where
  providerConfigRefName : String
  forProvider : TestCaseParameters
deriving Repr, DecidableEq

structure TestCase where
  spec : TestCaseSpec
deriving Repr, DecidableEq

/-- A managed resource handed to the controller: either a TestCase or some
other managed-resource kind (for which the Go type assertion
`mg.(*v1alpha1.TestCase)` fails). -/
inductive Managed where
  | testCase (tc : TestCase)
  | other (kind : String)
deriving Repr, DecidableEq

/-- A ProviderConfig as far as the controller reads it: `pc.Spec.Credentials`
is kept opaque as a descriptor passed to the credential extractor. -/
structure ProviderConfig where
  credentialsSpec : String
deriving Repr, DecidableEq

/-- Outcomes of the Kubernetes-side calls made by `Connect`: usage tracking,
`kube.Get` of the named ProviderConfig, and
`resource.CommonCredentialExtractor` applied to that config's credentials. -/
structure ConnectorEnv where
  track : Except String Unit
  kubeGetPC : String → Except String ProviderConfig
  extractCreds : String → Except String String

/-- The external client produced by `Connect`, wrapping the forge client. -/
structure External where
  forge : forge
deriving Repr, DecidableEq

/-- `connector.Connect`: type-assert, track usage, fetch the ProviderConfig,
extract credentials, build the forge client, ping (result discarded), and
return the external client. Go returns `(nil, err)` on failure and
`(client, nil)` on success, embedded as `Option External × Option String`. -/
def connector.Connect (cenv : ConnectorEnv) (fenv : ForgeEnv) (mg : Managed) :
    (Option External × Option String) × List Call :=
  match mg with
  | .other _ => ((none, some errNotMyType), [])
  | .testCase cr =>
    match cenv.track with
    | .error e => ((none, some (wrap errTrackPCUsage e)), [Call.track])
    | .ok _ =>
      match cenv.kubeGetPC cr.spec.providerConfigRefName with
      | .error e =>
        ((none, some (wrap errGetPC e)),
          [Call.track, Call.getPC cr.spec.providerConfigRefName])
      | .ok pc =>
        match cenv.extractCreds pc.credentialsSpec with
        | .error e =>
          ((none, some (wrap errGetCreds e)),
            [Call.track, Call.getPC cr.spec.providerConfigRefName,
              Call.extractCreds])
        | .ok data =>
          match NewForge data with
          | .error e =>
            ((none, some (wrap errNewClient e)),
              [Call.track, Call.getPC cr.spec.providerConfigRefName,
                Call.extractCreds])
          | .ok f =>
            ((some { forge := f }, none),
              [Call.track, Call.getPC cr.spec.providerConfigRefName,
                Call.extractCreds] ++ (forge.ping fenv f).2)

/-- `managed.ExternalObservation`; `connectionDetails` is the
string-to-bytes map, embedded as an association list. -/
structure ExternalObservation where
  resourceExists : Bool
  resourceUpToDate : Bool
  connectionDetails : List (String × String)
deriving Repr, DecidableEq

/-- The Go zero value `managed.ExternalObservation{}`. -/
def ExternalObservation.zero : ExternalObservation :=
  { resourceExists := false, resourceUpToDate := false, connectionDetails := [] }

structure ExternalCreation where
  connectionDetails : List (String × String)
deriving Repr, DecidableEq

/-- The Go zero value `managed.ExternalCreation{}`. -/
def ExternalCreation.zero : ExternalCreation := { connectionDetails := [] }

/-- `external.Observe`: type-assert, call `forge.exists` discarding its error
(`exists, _ := c.forge.exists(...)`), and report
`{ResourceExists: exists, ResourceUpToDate: true, ConnectionDetails: {}}`
with a `nil` error. -/
def external.Observe (env : ForgeEnv) (c : External) (mg : Managed) :
    (ExternalObservation × Option String) × List Call :=
  match mg with
  | .other _ => ((ExternalObservation.zero, some errNotMyType), [])
  | .testCase testCase =>
    let res := forge.exists env c.forge testCase.spec.forProvider.org
      testCase.spec.forProvider.name
    (({ resourceExists := res.1.1, resourceUpToDate := true,
        connectionDetails := [] }, none), res.2)

/-- `external.Create`: type-assert, call `forge.create`; on error return the
zero creation with the error, otherwise an empty `ConnectionDetails` with a
`nil` error. -/
def external.Create (env : ForgeEnv) (c : External) (mg : Managed) :
    (ExternalCreation × Option String) × List Call :=
  match mg with
  | .other _ => ((ExternalCreation.zero, some errNotMyType), [])
  | .testCase cr =>
    let res := forge.create env c.forge cr.spec.forProvider.org
      cr.spec.forProvider.name
    match res.1 with
    | some e => ((ExternalCreation.zero, some e), res.2)
    | none => (({ connectionDetails := [] }, none), res.2)

/-- `external.Delete`: type-assert, print, return `nil`; no external call. -/
def external.Delete (_env : ForgeEnv) (_c : External) (mg : Managed) :
    Option String × List Call :=
  match mg with
  | .other _ => (some errNotMyType, [])
  | .testCase _ => (none, [])

/-! ## Concrete fixtures used by witnesses and counterexamples -/

/-- The raw bytes `{"data":[]}` of the spec's Scenario A. -/
def jsonEmptyList : String := "\x7b\"data\":[]\x7d"

/-- The raw bytes of the spec's Scenario B list response. -/
def jsonOneRecord : String :=
  "\x7b\"data\":[\x7b\"id\":\"1\",\"attributes\":\x7b\"name\":\"load-1\",\"scope\":\"acme\"\x7d\x7d]\x7d"

/-- The record parsed from `jsonOneRecord`. -/
def recordLoad1 : forgeApiResponseData :=
  { id := "1", attributes := { name := "load-1", scope := "acme", org := "" } }

/-- Scenario A environment: the list command succeeds with `{"data":[]}`,
which unmarshals to an empty record list. -/
def envScenarioA : ForgeEnv :=
  { listCmd := fun _ => .ok jsonEmptyList,
    unmarshal := fun s =>
      if s == jsonEmptyList then .ok { ForgeApiResponseData := [] }
      else .error "invalid character",
    pingCmd := .ok "pong",
    createCmd := fun _ _ => .ok "" }

/-- Scenario B environment: the list command succeeds with one record named
`load-1` scoped to `acme`. -/
def envScenarioB : ForgeEnv :=
  { listCmd := fun _ => .ok jsonOneRecord,
    unmarshal := fun s =>
      if s == jsonOneRecord then .ok { ForgeApiResponseData := [recordLoad1] }
      else .error "invalid character",
    pingCmd := .ok "pong",
    createCmd := fun _ _ => .ok "" }

/-- Scenario C environment: the `forge` list command itself fails. -/
def envListFails : ForgeEnv :=
  { listCmd := fun _ => .error "exit status 1",
    unmarshal := fun _ => .error "unexpected end of JSON input",
    pingCmd := .ok "pong",
    createCmd := fun _ _ => .ok "" }

/-- An environment whose `forge ping` fails but everything else succeeds. -/
def envPingFails : ForgeEnv :=
  { listCmd := fun _ => .ok jsonEmptyList,
    unmarshal := fun s =>
      if s == jsonEmptyList then .ok { ForgeApiResponseData := [] }
      else .error "invalid character",
    pingCmd := .error "connection refused",
    createCmd := fun _ _ => .ok "" }

/-- A TestCase for org `acme`, name `load-1`. -/
def tcAcme : TestCase :=
  { spec := { providerConfigRefName := "default",
              forProvider :=
                { configurableField := "", org := "acme", name := "load-1" } } }

/-- A forge client with a fixed token. -/
def forgeT : forge := { jwtToken := "t" }

/-- The external client wrapping `forgeT`. -/
def extT : External := { forge := forgeT }

/-- A connector environment in which tracking, config fetch and credential
extraction all succeed. -/
def cenvOk : ConnectorEnv :=
  { track := .ok (),
    kubeGetPC := fun _ => .ok { credentialsSpec := "secretRef" },
    extractCreds := fun _ => .ok "jwt-token" }

/-- A connector environment whose ProviderConfig lookup fails (Scenario D). -/
def cenvNoPC : ConnectorEnv :=
  { track := .ok (),
    kubeGetPC := fun _ => .error "providerconfigs \"default\" not found",
    extractCreds := fun _ => .ok "jwt-token" }

/-! ## Helper lemmas -/

/-- The existence scan equals `List.any` over the record names. -/
theorem existsLoop_eq_any (data : List forgeApiResponseData) (name : String) :
    existsLoop data name = data.any (fun el => el.attributes.name == name) := by
  induction data with
  | nil => rfl
  | cons el rest ih =>
    by_cases h : el.attributes.name == name <;>
      simp [existsLoop, h, ih]

/-- The existence scan succeeds iff some record carries the name. -/
theorem existsLoop_true_iff (data : List forgeApiResponseData) (name : String) :
    existsLoop data name = true ↔ ∃ el ∈ data, el.attributes.name = name := by
  rw [existsLoop_eq_any, List.any_eq_true]
  simp

/-- The existence scan factors through the list of record names. -/
theorem existsLoop_eq_names_any (data : List forgeApiResponseData)
    (name : String) :
    existsLoop data name
      = (data.map (fun el => el.attributes.name)).any (fun s => s == name) := by
  induction data with
  | nil => rfl
  | cons el rest ih =>
    by_cases h : el.attributes.name == name <;>
      simp [existsLoop, h, ih]

/-- The existence scan depends only on the record names, not on ids or
scopes. -/
theorem existsLoop_congr_names (data data2 : List forgeApiResponseData)
    (name : String)
    (h : data.map (fun el => el.attributes.name)
      = data2.map (fun el => el.attributes.name)) :
    existsLoop data name = existsLoop data2 name := by
  rw [existsLoop_eq_names_any, existsLoop_eq_names_any, h]

/-- `forge.exists` pairs every error with `false`. -/
theorem exists_error_implies_false (env : ForgeEnv) (f : forge)
    (org name e : String)
    (h : (forge.exists env f org name).1.2 = some e) :
    (forge.exists env f org name).1.1 = false := by
  cases hc : env.listCmd org with
  | error e2 => simp [forge.exists, hc]
  | ok s =>
    cases hp : env.unmarshal s with
    | error e2 => simp [forge.exists, hc, hp]
    | ok r => simp [forge.exists, hc, hp] at h

/-! ## Claim theorems -/

/-- C1 (code bug): for the TestCase `acme/load-1` under a failing list
command, `forge.exists` surfaces the query error, yet `Observe` discards it
(`exists, _ :=`) and returns a nil error with `ResourceExists = false`,
contradicting the claim that the pass ends in error so that no create can
follow. -/
theorem observe_swallows_query_error_C1 :
    (forge.exists envListFails forgeT "acme" "load-1").1
      = (false, some "exit status 1")
    ∧ external.Observe envListFails extT (Managed.testCase tcAcme)
      = (({ resourceExists := false, resourceUpToDate := true,
            connectionDetails := [] }, none), [Call.listTC "acme"]) :=
  ⟨rfl, rfl⟩

/-- C2 counterexample: the well-formed Scenario A response `{"data":[]}`
makes `exists` return `(false, nil)` although the parsed list is empty, so
"the parsed list was non-empty" fails. -/
theorem exists_silent_false_on_empty_list_C2_cex :
    envScenarioA.listCmd "acme" = .ok jsonEmptyList
    ∧ envScenarioA.unmarshal jsonEmptyList = .ok { ForgeApiResponseData := [] }
    ∧ (forge.exists envScenarioA forgeT "acme" "load-1").1 = (false, none) :=
  ⟨rfl, rfl, rfl⟩

/-- C2 (amended): `exists` returns false with a nil error only when the list
command succeeded and its payload unmarshalled; the boolean is then the scan
of the parsed records, which may legitimately be empty (confirmed
absence). -/
theorem exists_false_nil_means_wellformed_C2 (env : ForgeEnv) (f : forge)
    (org name : String)
    (h : (forge.exists env f org name).1.2 = none) :
    ∃ s r, env.listCmd org = .ok s ∧ env.unmarshal s = .ok r
      ∧ (forge.exists env f org name).1
        = (existsLoop r.ForgeApiResponseData name, none) := by
  cases hc : env.listCmd org with
  | error e => simp [forge.exists, hc] at h
  | ok s =>
    cases hp : env.unmarshal s with
    | error e => simp [forge.exists, hc, hp] at h
    | ok r => exact ⟨s, r, rfl, hp, by simp [forge.exists, hc, hp]⟩

/-- Witness for C2 at Scenario A. -/
theorem exists_false_nil_means_wellformed_C2_witness :
    ∃ s r, envScenarioA.listCmd "acme" = .ok s
      ∧ envScenarioA.unmarshal s = .ok r
      ∧ (forge.exists envScenarioA forgeT "acme" "load-1").1
        = (existsLoop r.ForgeApiResponseData "load-1", none) :=
  exists_false_nil_means_wellformed_C2 envScenarioA forgeT "acme" "load-1" rfl

/-- C3: for a well-formed structured list response, `exists` reports a nil
error and true exactly when some parsed record's `attributes.name` equals
the requested name; the ids and scopes of the records do not affect the
result. -/
theorem exists_true_iff_name_match_C3 (env : ForgeEnv) (f : forge)
    (org name s : String) (r : forgeApiResponse)
    (hcmd : env.listCmd org = .ok s) (hparse : env.unmarshal s = .ok r) :
    (forge.exists env f org name).1.2 = none
    ∧ ((forge.exists env f org name).1.1 = true
        ↔ ∃ el ∈ r.ForgeApiResponseData, el.attributes.name = name)
    ∧ ∀ data2 : List forgeApiResponseData,
        data2.map (fun el => el.attributes.name)
          = r.ForgeApiResponseData.map (fun el => el.attributes.name) →
        existsLoop data2 name = (forge.exists env f org name).1.1 := by
  have hres : (forge.exists env f org name).1
      = (existsLoop r.ForgeApiResponseData name, none) := by
    simp [forge.exists, hcmd, hparse]
  refine ⟨by rw [hres], ?_, ?_⟩
  · rw [hres]
    exact existsLoop_true_iff _ _
  · intro data2 h2
    rw [hres]
    exact existsLoop_congr_names _ _ _ h2

/-- Witness for C3 at Scenario B. -/
theorem exists_true_iff_name_match_C3_witness :
    (forge.exists envScenarioB forgeT "acme" "load-1").1.2 = none
    ∧ ((forge.exists envScenarioB forgeT "acme" "load-1").1.1 = true
        ↔ ∃ el ∈ [recordLoad1], el.attributes.name = "load-1")
    ∧ ∀ data2 : List forgeApiResponseData,
        data2.map (fun el => el.attributes.name)
          = [recordLoad1].map (fun el => el.attributes.name) →
        existsLoop data2 "load-1"
          = (forge.exists envScenarioB forgeT "acme" "load-1").1.1 :=
  exists_true_iff_name_match_C3 envScenarioB forgeT "acme" "load-1"
    jsonOneRecord { ForgeApiResponseData := [recordLoad1] } rfl rfl

/-- C4: if tracking, config fetch and credential extraction succeed, Connect
returns a usable external client with a nil error, whatever the outcome of
the ping health check. -/
theorem connect_ignores_ping_failure_C4 (cenv : ConnectorEnv)
    (fenv : ForgeEnv) (tc : TestCase) (pc : ProviderConfig) (data : String)
    (htrack : cenv.track = .ok ())
    (hpc : cenv.kubeGetPC tc.spec.providerConfigRefName = .ok pc)
    (hcred : cenv.extractCreds pc.credentialsSpec = .ok data) :
    (connector.Connect cenv fenv (Managed.testCase tc)).1
      = (some { forge := { jwtToken := data } }, none) := by
  simp [connector.Connect, htrack, hpc, hcred, NewForge]

/-- Witness for C4 with a failing ping. -/
theorem connect_ignores_ping_failure_C4_witness :
    (connector.Connect cenvOk envPingFails (Managed.testCase tcAcme)).1
      = (some { forge := { jwtToken := "jwt-token" } }, none) :=
  connect_ignores_ping_failure_C4 cenvOk envPingFails tcAcme
    { credentialsSpec := "secretRef" } "jwt-token" rfl rfl rfl

/-- C5: Connect runs usage tracking, config fetch, credential resolution and
client construction strictly in that order, each failure aborting before the
next step: a tracking error yields only the track call (no config fetch); a
missing ProviderConfig aborts with no client constructed (no ping, no forge
call); a credential error likewise; and on success the call trace is exactly
track, getPC, extractCreds, ping. -/
theorem connect_fail_fast_in_order_C5 (cenv : ConnectorEnv)
    (fenv : ForgeEnv) (tc : TestCase) :
    (∀ e, cenv.track = .error e →
      connector.Connect cenv fenv (Managed.testCase tc)
        = ((none, some (wrap errTrackPCUsage e)), [Call.track]))
    ∧ (∀ e, cenv.track = .ok () →
        cenv.kubeGetPC tc.spec.providerConfigRefName = .error e →
        connector.Connect cenv fenv (Managed.testCase tc)
          = ((none, some (wrap errGetPC e)),
              [Call.track, Call.getPC tc.spec.providerConfigRefName]))
    ∧ (∀ pc e, cenv.track = .ok () →
        cenv.kubeGetPC tc.spec.providerConfigRefName = .ok pc →
        cenv.extractCreds pc.credentialsSpec = .error e →
        connector.Connect cenv fenv (Managed.testCase tc)
          = ((none, some (wrap errGetCreds e)),
              [Call.track, Call.getPC tc.spec.providerConfigRefName,
                Call.extractCreds]))
    ∧ (∀ pc data, cenv.track = .ok () →
        cenv.kubeGetPC tc.spec.providerConfigRefName = .ok pc →
        cenv.extractCreds pc.credentialsSpec = .ok data →
        connector.Connect cenv fenv (Managed.testCase tc)
          = ((some { forge := { jwtToken := data } }, none),
              [Call.track, Call.getPC tc.spec.providerConfigRefName,
                Call.extractCreds, Call.ping])) := by
  refine ⟨?_, ?_, ?_, ?_⟩
  · intro e h
    simp [connector.Connect, h]
  · intro e h1 h2
    simp [connector.Connect, h1, h2]
  · intro pc e h1 h2 h3
    simp [connector.Connect, h1, h2, h3]
  · intro pc data h1 h2 h3
    cases hping : fenv.pingCmd <;>
      simp [connector.Connect, h1, h2, h3, NewForge, forge.ping, hping]

/-- Witness for C5 at Scenario D (missing ProviderConfig). -/
theorem connect_fail_fast_in_order_C5_witness :
    connector.Connect cenvNoPC envPingFails (Managed.testCase tcAcme)
      = ((none, some (wrap errGetPC "providerconfigs \"default\" not found")),
          [Call.track, Call.getPC "default"]) :=
  (connect_fail_fast_in_order_C5 cenvNoPC envPingFails tcAcme).2.1
    "providerconfigs \"default\" not found" rfl rfl

/-- C6: any observation reporting the resource as existing also reports it
up to date; drift detection is never attempted. -/
theorem observe_exists_implies_uptodate_C6 (env : ForgeEnv) (c : External)
    (mg : Managed)
    (h : (external.Observe env c mg).1.1.resourceExists = true) :
    (external.Observe env c mg).1.1.resourceUpToDate = true := by
  cases mg with
  | other k => simp [external.Observe, ExternalObservation.zero] at h
  | testCase tc => rfl

/-- Witness for C6 at Scenario B. -/
theorem observe_exists_implies_uptodate_C6_witness :
    (external.Observe envScenarioB extT
        (Managed.testCase tcAcme)).1.1.resourceUpToDate = true :=
  observe_exists_implies_uptodate_C6 envScenarioB extT
    (Managed.testCase tcAcme) (by decide)

/-- C7: Create invokes the creation command exactly once, with the combined
identifier org/name and the fixed definition path; on success it returns
empty connection details and a nil error, on failure it surfaces the command
error with the zero creation value. -/
theorem create_once_combined_id_C7 (env : ForgeEnv) (c : External)
    (tc : TestCase) :
    (external.Create env c (Managed.testCase tc)).2
      = [Call.createTC
          (tc.spec.forProvider.org ++ "/" ++ tc.spec.forProvider.name)
          loadtestPath]
    ∧ (∀ s, env.createCmd
          (tc.spec.forProvider.org ++ "/" ++ tc.spec.forProvider.name)
          loadtestPath = .ok s →
        (external.Create env c (Managed.testCase tc)).1
          = ({ connectionDetails := [] }, none))
    ∧ (∀ e, env.createCmd
          (tc.spec.forProvider.org ++ "/" ++ tc.spec.forProvider.name)
          loadtestPath = .error e →
        (external.Create env c (Managed.testCase tc)).1
          = (ExternalCreation.zero, some e)) := by
  refine ⟨?_, ?_, ?_⟩
  · cases hc : env.createCmd
        (tc.spec.forProvider.org ++ "/" ++ tc.spec.forProvider.name)
        loadtestPath <;>
      simp [external.Create, forge.create, hc]
  · intro s hs
    simp [external.Create, forge.create, hs]
  · intro e he
    simp [external.Create, forge.create, he, ExternalCreation.zero]

/-- Witness for C7 at Scenario A. -/
theorem create_once_combined_id_C7_witness :
    (external.Create envScenarioA extT (Managed.testCase tcAcme)).1
      = ({ connectionDetails := [] }, none) :=
  (create_once_combined_id_C7 envScenarioA extT tcAcme).2.1 "" rfl

/-- C8: Delete performs no external call and returns a nil error for every
TestCase. -/
theorem delete_noop_C8 (env : ForgeEnv) (c : External) (tc : TestCase) :
    external.Delete env c (Managed.testCase tc) = (none, []) := rfl

/-- C9: every non-TestCase input is rejected by Connect, Observe, Create and
Delete with the errNotMyType error and an empty call trace (no external-
system call, no configuration-store access). -/
theorem non_testcase_rejected_C9 (cenv : ConnectorEnv) (fenv env : ForgeEnv)
    (c : External) (kind : String) :
    connector.Connect cenv fenv (Managed.other kind)
      = ((none, some errNotMyType), [])
    ∧ external.Observe env c (Managed.other kind)
      = ((ExternalObservation.zero, some errNotMyType), [])
    ∧ external.Create env c (Managed.other kind)
      = ((ExternalCreation.zero, some errNotMyType), [])
    ∧ external.Delete env c (Managed.other kind)
      = (some errNotMyType, []) :=
  ⟨rfl, rfl, rfl, rfl⟩

/-- C10: Observe never errors on a TestCase: it returns a nil error, the
exists boolean as ResourceExists (false whenever the query failed),
ResourceUpToDate true and empty connection details. -/
theorem observe_never_errors_C10 (env : ForgeEnv) (c : External)
    (tc : TestCase) :
    (external.Observe env c (Managed.testCase tc)).1
      = ({ resourceExists :=
            (forge.exists env c.forge tc.spec.forProvider.org
              tc.spec.forProvider.name).1.1,
           resourceUpToDate := true, connectionDetails := [] }, none)
    ∧ ∀ e, (forge.exists env c.forge tc.spec.forProvider.org
          tc.spec.forProvider.name).1.2 = some e →
        (external.Observe env c (Managed.testCase tc)).1.1.resourceExists
          = false := by
  refine ⟨rfl, ?_⟩
  intro e he
  exact exists_error_implies_false env c.forge _ _ e he

/-- Witness for C10 at the failing-list environment. -/
theorem observe_never_errors_C10_witness :
    (external.Observe envListFails extT
        (Managed.testCase tcAcme)).1.1.resourceExists = false :=
  (observe_never_errors_C10 envListFails extT tcAcme).2 "exit status 1" rfl
